import Mathlib

/-!
Verification of the gestational calculator and lab status evaluator of the
hashimom backend (`backend/utils/gestation.py`, `backend/api/labs.py`,
`backend/api/profile.py`, `backend/seed_reference_ranges.py`).

Modelling conventions:
* Calendar dates are modelled as epoch day numbers (`ℤ`); `today - lmp` in
  days is integer subtraction, `timedelta(days=280)` is `- 280`.
* Python `float` values appearing here (lab results, reference bounds) are
  modelled as `ℚ`; the strings fed to `float(...)` are parsed by `pyFloat?`,
  which models CPython `float()` on (signed) decimal literals with an
  optional fraction and exponent and surrounding ASCII whitespace.
* The database is modelled as a list of records; SQLAlchemy
  `filter_by(...).first()` is `List.find?`, and `filter(...)
  .order_by(test_date.desc(), id.desc()).first()` is the maximum of the
  filtered list under the lexicographic (test_date, id) order.
-/

namespace Hashimom

/-! ### Python `float()` string parsing, modelled over ℚ -/

/-- ASCII whitespace accepted (and stripped) by CPython `float()`. -/
def isPySpace (c : Char) : Bool :=
  c == ' ' || c == '\t' || c == '\n' || c == '\r' || c == '\x0b' || c == '\x0c'

/-- Strip leading and trailing whitespace from a character list. -/
def trimChars (cs : List Char) : List Char :=
  ((cs.dropWhile isPySpace).reverse.dropWhile isPySpace).reverse

/-- Split a character list into its maximal leading run of ASCII digits and
the rest. -/
def takeDigits : List Char → List Char × List Char
  | [] => ([], [])
  | c :: cs =>
    if c.isDigit then
      let p := takeDigits cs
      (c :: p.1, p.2)
    else ([], c :: cs)

/-- Numeric value of a list of ASCII digits (most significant first). -/
def digitsToNat (ds : List Char) : ℕ :=
  ds.foldl (fun acc c => 10 * acc + (c.toNat - 48)) 0

/-- The structural content of a parsed decimal literal: sign, integer part,
fraction digits (value and count) and signed decimal exponent. Kept purely
over `Bool`/`ℕ`/`ℤ` so that parsing reduces inside the kernel. -/
structure DecLit where
  neg : Bool
  ip : ℕ
  fp : ℕ
  fplen : ℕ
  ex : ℤ
deriving DecidableEq, Repr

/-- The rational value denoted by a parsed decimal literal. -/
def DecLit.val (d : DecLit) : ℚ :=
  (if d.neg then (-1 : ℚ) else 1) * ((d.ip : ℚ) + (d.fp : ℚ) / (10 : ℚ) ^ d.fplen)
    * (10 : ℚ) ^ d.ex

/-- Parse the optional exponent suffix (after the mantissa). -/
def parseExp : List Char → Option ℤ
  | [] => some 0
  | e :: r =>
    if e == 'e' || e == 'E' then
      let sr : Bool × List Char :=
        match r with
        | '+' :: r2 => (false, r2)
        | '-' :: r2 => (true, r2)
        | r2 => (false, r2)
      let p := takeDigits sr.2
      if p.1.isEmpty || !p.2.isEmpty then none
      else some ((if sr.1 then -1 else 1) * (digitsToNat p.1 : ℤ))
    else none

/-- Parse a string the way CPython `float()` does on decimal literals:
optional surrounding whitespace, optional sign, digits with an optional
`.fraction`, optional `e`/`E` exponent; at least one mantissa digit is
required. (The special forms `inf`/`nan` are outside this model.) -/
def pyParse? (s : String) : Option DecLit :=
  let cs := trimChars s.toList
  let sgn : Bool × List Char :=
    match cs with
    | '+' :: r => (false, r)
    | '-' :: r => (true, r)
    | r => (false, r)
  let ipp := takeDigits sgn.2
  let fpp : List Char × List Char :=
    match ipp.2 with
    | '.' :: r => takeDigits r
    | r => ([], r)
  if ipp.1.isEmpty && fpp.1.isEmpty then none
  else
    match parseExp fpp.2 with
    | none => none
    | some e =>
      some ⟨sgn.1, digitsToNat ipp.1, digitsToNat fpp.1, fpp.1.length, e⟩

/-- `float(s)` as a partial function into ℚ. -/
def pyFloat? (s : String) : Option ℚ :=
  (pyParse? s).map DecLit.val

/-- Round-half-to-even to an integer, the rounding used by Python `round`. -/
def roundHalfEven (q : ℚ) : ℤ :=
  let f := ⌊q⌋
  if q - f < 1/2 then f
  else if q - f > 1/2 then f + 1
  else if f % 2 = 0 then f else f + 1

/-- Python `round(x, 1)`: round to one decimal place, ties to even. -/
def pyRound1 (q : ℚ) : ℚ :=
  (roundHalfEven (10 * q) : ℚ) / 10

/-! ### `backend/utils/gestation.py` -/

/-- The result dictionary `{weeks, days, trimester}` returned by the
gestational calculator. -/
structure GestResult where
  weeks : Option ℤ
  days : Option ℤ
  trimester : String
deriving DecidableEq, Repr

/-- `_classify_trimester` from `backend/utils/gestation.py`. -/
def classify_trimester (weeks : Option ℤ) : String :=
  match weeks with
  | none => "-"
  | some w =>
    if w ≤ 12 then "T1"
    else if w ≤ 27 then "T2"
    else "T3"

/-- `calculate_by_lmp` from `backend/utils/gestation.py`; dates are epoch
day numbers, `None` is `Option.none`. -/
def calculate_by_lmp (lmp_date today : Option ℤ) : GestResult :=
  match lmp_date, today with
  | some lmp, some t =>
    let days_delta := t - lmp
    if days_delta < 0 then ⟨none, none, "-"⟩
    else
      let weeks := Int.fdiv days_delta 7
      let days := Int.fmod days_delta 7
      ⟨some weeks, some days, classify_trimester (some weeks)⟩
  | _, _ => ⟨none, none, "-"⟩

/-- `calculate_by_due` from `backend/utils/gestation.py`. -/
def calculate_by_due (due_date today : Option ℤ) : GestResult :=
  match due_date, today with
  | some due, some t => calculate_by_lmp (some (due - 280)) (some t)
  | _, _ => ⟨none, none, "-"⟩

/-! ### `backend/api/profile.py` (duplicate calculator and `_to_out` core) -/

/-- `_calc_by_lmp` from `backend/api/profile.py` (dates assumed present). -/
def calc_by_lmp (lmp today : ℤ) : Option ℤ × String :=
  let days := today - lmp
  if days < 0 then (none, "-")
  else
    let weeks := Int.fdiv days 7
    let tri := if weeks ≤ 12 then "T1" else if weeks ≤ 27 then "T2" else "T3"
    (some weeks, tri)

/-- `_calc_by_due` from `backend/api/profile.py`. -/
def calc_by_due (edd today : ℤ) : Option ℤ × String :=
  calc_by_lmp (edd - 280) today

/-- A `Profile` row: the two optional dates used by the calculators. -/
structure ProfileRec where
  lmp_date : Option ℤ
  due_date : Option ℤ
deriving DecidableEq, Repr

/-- The `(gestational_age_weeks, trimester)` pair computed by `_to_out` in
`backend/api/profile.py` for a present profile: `weeks`/`tri` start as
`None`/`"-"` and are overwritten from `lmp_date` if present, else from
`due_date` if present. -/
def to_out_gest (p : ProfileRec) (today : ℤ) : Option ℤ × String :=
  match p.lmp_date with
  | some lmp => calc_by_lmp lmp today
  | none =>
    match p.due_date with
    | some edd => calc_by_due edd today
    | none => (none, "-")

/-! ### `backend/api/labs.py` -/

/-- `_current_trimester` from `backend/api/labs.py`; `today` is the process
clock date `date.today()`, passed explicitly. -/
def current_trimester (profile : Option ProfileRec) (today : ℤ) : Option String :=
  match profile with
  | none => none
  | some p =>
    match p.lmp_date with
    | some lmp => some (calculate_by_lmp (some lmp) (some today)).trimester
    | none =>
      match p.due_date with
      | some edd => some (calculate_by_due (some edd) (some today)).trimester
      | none => none

/-- A `ReferenceRange` row: (analyte, trimester) ↦ (low, high, unit). -/
structure ReferenceRange where
  analyte : String
  trimester : String
  low : ℚ
  high : ℚ
  unit : String
deriving DecidableEq, Repr

/-- A `Lab` row (the fields the evaluator reads); `test_date` is an epoch
day number and `id` the integer primary key. -/
structure Lab where
  id : ℤ
  user_id : ℤ
  test_name : String
  result : String
  test_date : ℤ
deriving DecidableEq, Repr

/-- Python `str.upper()` restricted to ASCII, the case used by analyte
names in this code base. -/
def pyUpper (s : String) : String :=
  String.mk (s.toList.map Char.toUpper)

/-- `ReferenceRange.query.filter_by(analyte=..., trimester=...).first()`
over a list model of the table. -/
def findRange (ranges : List ReferenceRange) (analyte trimester : String) :
    Option ReferenceRange :=
  ranges.find? (fun rr => rr.analyte == analyte && rr.trimester == trimester)

/-- `_status_for_lab` from `backend/api/labs.py`: the `try: float(...)` is
the `pyFloat?` guard, and the falsy-or-membership test on the trimester
collapses to membership in {T1, T2, T3} (the falsy strings `None`/`""` are
not members). -/
def status_for_lab (ranges : List ReferenceRange) (lab : Lab)
    (trimester : Option String) : String :=
  match pyFloat? lab.result with
  | none => "NA"
  | some value =>
    match trimester with
    | none => "NA"
    | some t =>
      if t = "T1" ∨ t = "T2" ∨ t = "T3" then
        match findRange ranges (pyUpper lab.test_name) t with
        | none => "NA"
        | some rr =>
          if value < rr.low then "LOW"
          else if value > rr.high then "HIGH"
          else "NORMAL"
      else "NA"

/-- The filter of the "previous lab" query in `_delta_for_lab`: same user,
same (case-sensitive) test_name, and earlier (test_date, id) in the strict
lexicographic sense used by the SQL predicate. -/
def prevFilter (user_id : ℤ) (lab : Lab) (x : Lab) : Bool :=
  x.user_id == user_id && x.test_name == lab.test_name &&
    (x.test_date < lab.test_date || (x.test_date == lab.test_date && x.id < lab.id))

/-- `a` strictly after `b` in the (test_date, id) lexicographic order used
by `order_by(test_date.desc(), id.desc())`. -/
def lexAfter (a b : Lab) : Bool :=
  b.test_date < a.test_date || (a.test_date == b.test_date && b.id < a.id)

/-- Keep the later of an accumulated row and a new row under `lexAfter`. -/
def pickLater (acc : Option Lab) (x : Lab) : Option Lab :=
  match acc with
  | none => some x
  | some a => if lexAfter x a then some x else some a

/-- The `.order_by(test_date.desc(), id.desc()).first()` of the filtered
rows: the maximum of the filtered list under (test_date, id). -/
def prevLab? (labs : List Lab) (user_id : ℤ) (lab : Lab) : Option Lab :=
  (labs.filter (prevFilter user_id lab)).foldl pickLater none

/-- `_delta_for_lab` from `backend/api/labs.py`, over a list model of the
`Lab` table. -/
def delta_for_lab (labs : List Lab) (user_id : ℤ) (lab : Lab) : Option ℚ :=
  match pyFloat? lab.result with
  | none => none
  | some curr =>
    match prevLab? labs user_id lab with
    | none => none
    | some prev =>
      match pyFloat? prev.result with
      | none => none
      | some prev_val =>
        if prev_val = 0 then none
        else some (pyRound1 ((curr - prev_val) / prev_val * 100))

/-! ### `backend/seed_reference_ranges.py` -/

/-- The fixed `SEED` table of reference ranges. -/
def SEED : List ReferenceRange :=
  [⟨"TSH", "T1", 0.1, 2.5, "mIU/L"⟩,
   ⟨"TSH", "T2", 0.2, 3.0, "mIU/L"⟩,
   ⟨"TSH", "T3", 0.3, 3.0, "mIU/L"⟩,
   ⟨"FT4", "T1", 0.8, 1.7, "ng/dL"⟩,
   ⟨"FT4", "T2", 0.7, 1.6, "ng/dL"⟩,
   ⟨"FT4", "T3", 0.7, 1.5, "ng/dL"⟩,
   ⟨"TPOAB", "T1", 0.0, 35.0, "IU/mL"⟩,
   ⟨"TPOAB", "T2", 0.0, 35.0, "IU/mL"⟩,
   ⟨"TPOAB", "T3", 0.0, 35.0, "IU/mL"⟩,
   ⟨"TGAB", "T1", 0.0, 35.0, "IU/mL"⟩,
   ⟨"TGAB", "T2", 0.0, 35.0, "IU/mL"⟩,
   ⟨"TGAB", "T3", 0.0, 35.0, "IU/mL"⟩]

/-! ### Theorems -/

/-- C3: for every non-negative integer `weeks`, `_classify_trimester`
returns `T1` on `[0, 12]`, `T2` on `[13, 27]` and `T3` from 28 on; the
boundary values 12 and 27 belong to the lower trimester. -/
theorem classify_trimester_spec (w : ℤ) (h : 0 ≤ w) :
    (w ≤ 12 → classify_trimester (some w) = "T1") ∧
    (13 ≤ w → w ≤ 27 → classify_trimester (some w) = "T2") ∧
    (28 ≤ w → classify_trimester (some w) = "T3") := by
  refine ⟨fun h1 => ?_, fun h1 h2 => ?_, fun h1 => ?_⟩ <;>
    simp only [classify_trimester] <;> split_ifs <;> first | rfl | omega

/-- Witness for `classify_trimester_spec` at the boundary weeks 12, 13
and 28. -/
theorem classify_trimester_spec_witness :
    classify_trimester (some 12) = "T1" ∧ classify_trimester (some 13) = "T2" ∧
    classify_trimester (some 28) = "T3" :=
  ⟨(classify_trimester_spec 12 (by norm_num)).1 (by norm_num),
   (classify_trimester_spec 13 (by norm_num)).2.1 (by norm_num) (by norm_num),
   (classify_trimester_spec 28 (by norm_num)).2.2 (by norm_num)⟩

/-- C4: for all present dates, `calculate_by_due d today` returns exactly
the record of `calculate_by_lmp (d - 280 days) today`. -/
theorem calculate_by_due_delegates (d t : ℤ) :
    calculate_by_due (some d) (some t) = calculate_by_lmp (some (d - 280)) (some t) := rfl

/-- C5: `calculate_by_lmp` returns the null record `{weeks: none, days:
none, trimester: "-"}` exactly when a date is absent or the day delta is
negative, and otherwise returns non-null weeks and days; the null outcome
is an ordinary return value (the function is total). -/
theorem calculate_by_lmp_null_iff (ol ot : Option ℤ) :
    (calculate_by_lmp ol ot = ⟨none, none, "-"⟩ ↔
      ol = none ∨ ot = none ∨ ∃ l t, ol = some l ∧ ot = some t ∧ t - l < 0) ∧
    (∀ l t, ol = some l → ot = some t → 0 ≤ t - l →
      ∃ w d : ℤ, (calculate_by_lmp ol ot).weeks = some w ∧
        (calculate_by_lmp ol ot).days = some d) := by
  constructor
  · cases ol with
    | none => simp [calculate_by_lmp]
    | some l =>
      cases ot with
      | none => simp [calculate_by_lmp]
      | some t =>
        simp only [calculate_by_lmp]
        split_ifs with hneg
        · simp only [true_iff]
          exact Or.inr (Or.inr ⟨l, t, rfl, rfl, hneg⟩)
        · constructor
          · intro he
            exact absurd (congrArg GestResult.weeks he) (by simp)
          · rintro (h | h | ⟨l', t', hl, ht, hlt⟩)
            · exact absurd h (by simp)
            · exact absurd h (by simp)
            · injection hl with hl; injection ht with ht; omega
  · rintro l t rfl rfl hnn
    simp only [calculate_by_lmp]
    split_ifs with hneg
    · omega
    · exact ⟨_, _, rfl, rfl⟩

/-- Witness for `calculate_by_lmp_null_iff` at lmp = day 0, today =
day 13. -/
theorem calculate_by_lmp_null_iff_witness :
    ∃ w d : ℤ, (calculate_by_lmp (some 0) (some 13)).weeks = some w ∧
      (calculate_by_lmp (some 0) (some 13)).days = some d :=
  (calculate_by_lmp_null_iff (some 0) (some 13)).2 0 13 rfl rfl (by norm_num)

/-- C6: for a non-negative day delta, the weeks/days of `calculate_by_lmp`
are the floor quotient and remainder of the delta by 7, so
`weeks * 7 + days = delta` and `days ∈ [0, 6]`. -/
theorem calculate_by_lmp_weeks_days (l t : ℤ) (h : 0 ≤ t - l) :
    ∃ w d : ℤ, (calculate_by_lmp (some l) (some t)).weeks = some w ∧
      (calculate_by_lmp (some l) (some t)).days = some d ∧
      w = Int.fdiv (t - l) 7 ∧ d = Int.fmod (t - l) 7 ∧
      w * 7 + d = t - l ∧ 0 ≤ d ∧ d ≤ 6 := by
  simp only [calculate_by_lmp]
  split_ifs with hneg
  · omega
  · refine ⟨_, _, rfl, rfl, rfl, rfl, ?_, ?_, ?_⟩
    · have := Int.fmod_add_fdiv (t - l) 7
      linarith
    · exact Int.fmod_nonneg' _ (by norm_num)
    · have := Int.fmod_lt_of_pos (t - l) (by norm_num : (0:ℤ) < 7)
      omega

/-- Witness for `calculate_by_lmp_weeks_days` at delta = 13 days. -/
theorem calculate_by_lmp_weeks_days_witness :
    ∃ w d : ℤ, (calculate_by_lmp (some 0) (some 13)).weeks = some w ∧
      (calculate_by_lmp (some 0) (some 13)).days = some d ∧
      w = Int.fdiv (13 - 0) 7 ∧ d = Int.fmod (13 - 0) 7 ∧
      w * 7 + d = 13 - 0 ∧ 0 ≤ d ∧ d ≤ 6 :=
  calculate_by_lmp_weeks_days 0 13 (by norm_num)

/-- C9: the duplicate calculator in `backend/api/profile.py` agrees with
`backend/utils/gestation.py` on present dates: `_calc_by_lmp` returns the
weeks and trimester of `calculate_by_lmp`, and `_calc_by_due` those of
`calculate_by_due`. -/
theorem profile_calc_agrees (l t : ℤ) :
    (calc_by_lmp l t).1 = (calculate_by_lmp (some l) (some t)).weeks ∧
    (calc_by_lmp l t).2 = (calculate_by_lmp (some l) (some t)).trimester ∧
    (calc_by_due l t).1 = (calculate_by_due (some l) (some t)).weeks ∧
    (calc_by_due l t).2 = (calculate_by_due (some l) (some t)).trimester := by
  refine ⟨?_, ?_, ?_, ?_⟩ <;>
    simp only [calc_by_lmp, calc_by_due, calculate_by_lmp, calculate_by_due,
      classify_trimester] <;>
    split_ifs <;> rfl

/-- C7: when `lmp_date` is present the trimester and gestational values of
`_current_trimester` and `_to_out` are derived from it alone — changing
`due_date` changes nothing, and the result equals the one computed from
the LMP. -/
theorem lmp_precedence (l t : ℤ) (d d' : Option ℤ) :
    current_trimester (some ⟨some l, d⟩) t = current_trimester (some ⟨some l, d'⟩) t ∧
    current_trimester (some ⟨some l, d⟩) t =
      some (calculate_by_lmp (some l) (some t)).trimester ∧
    to_out_gest ⟨some l, d⟩ t = to_out_gest ⟨some l, d'⟩ t ∧
    to_out_gest ⟨some l, d⟩ t = calc_by_lmp l t :=
  ⟨rfl, rfl, rfl, rfl⟩

/-- C1: `_status_for_lab` yields `NA` when the result string does not
parse, when the trimester is absent or outside {T1, T2, T3}, or when no
reference range matches (analyte uppercased, trimester); with a matched
range it follows the sequential low/high comparison, and values equal to
`low` or `high` are `NORMAL`. -/
theorem status_for_lab_spec (ranges : List ReferenceRange) (lab : Lab)
    (tri : Option String) :
    (pyFloat? lab.result = none → status_for_lab ranges lab tri = "NA") ∧
    (tri = none → status_for_lab ranges lab tri = "NA") ∧
    (∀ t, tri = some t → ¬(t = "T1" ∨ t = "T2" ∨ t = "T3") →
      status_for_lab ranges lab tri = "NA") ∧
    (∀ v t, pyFloat? lab.result = some v → tri = some t →
      (t = "T1" ∨ t = "T2" ∨ t = "T3") →
      findRange ranges (pyUpper lab.test_name) t = none →
      status_for_lab ranges lab tri = "NA") ∧
    (∀ v t rr, pyFloat? lab.result = some v → tri = some t →
      (t = "T1" ∨ t = "T2" ∨ t = "T3") →
      findRange ranges (pyUpper lab.test_name) t = some rr →
      (status_for_lab ranges lab tri =
        (if v < rr.low then "LOW" else if v > rr.high then "HIGH" else "NORMAL")) ∧
      (v < rr.low → status_for_lab ranges lab tri = "LOW") ∧
      (rr.low ≤ v → v ≤ rr.high → status_for_lab ranges lab tri = "NORMAL")) := by
  refine ⟨?_, ?_, ?_, ?_, ?_⟩
  · intro hp; simp [status_for_lab, hp]
  · intro ht; subst ht
    cases hp : pyFloat? lab.result <;> simp [status_for_lab, hp]
  · intro t ht hnot; subst ht
    cases hp : pyFloat? lab.result <;> simp [status_for_lab, hp, hnot]
  · intro v t hv ht htri hf; subst ht
    simp [status_for_lab, hv, htri, hf]
  · intro v t rr hv ht htri hf; subst ht
    refine ⟨?_, fun hlow => ?_, fun h1 h2 => ?_⟩
    · simp [status_for_lab, hv, htri, hf]
    · simp [status_for_lab, hv, htri, hf, hlow]
    · simp [status_for_lab, hv, htri, hf, not_lt.mpr h1, not_lt.mpr h2]

/-- Witness for `status_for_lab_spec`: a lowercase analyte "tsh" with
result "2.5" in T2 is NORMAL under the seed table (2.5 ∈ [0.2, 3.0]). -/
theorem status_for_lab_spec_witness :
    status_for_lab SEED ⟨1, 1, "tsh", "2.5", 0⟩ (some "T2") = "NORMAL" := by
  have hp : pyFloat? "2.5" = some (5/2) := by
    simp [pyFloat?, show pyParse? "2.5" = some ⟨false, 2, 5, 1, 0⟩ from by decide,
      DecLit.val]
    norm_num
  have hf : findRange SEED (pyUpper "tsh") "T2" = some ⟨"TSH", "T2", 0.2, 3.0, "mIU/L"⟩ := by
    rfl
  exact ((status_for_lab_spec SEED ⟨1, 1, "tsh", "2.5", 0⟩ (some "T2")).2.2.2.2
      (5/2) "T2" ⟨"TSH", "T2", 0.2, 3.0, "mIU/L"⟩ hp rfl (Or.inr (Or.inl rfl)) hf).2.2
    (by norm_num) (by norm_num)

/-- C10: `_status_for_lab` is total: on every result string and every
trimester value (including absent or invalid labels) it returns one of
exactly "LOW", "HIGH", "NORMAL", "NA" — every failure path, the guarded
numeric parse included, yields "NA" rather than an exception. -/
theorem status_for_lab_total (ranges : List ReferenceRange) (lab : Lab)
    (tri : Option String) :
    status_for_lab ranges lab tri = "LOW" ∨ status_for_lab ranges lab tri = "HIGH" ∨
    status_for_lab ranges lab tri = "NORMAL" ∨ status_for_lab ranges lab tri = "NA" := by
  cases hp : pyFloat? lab.result with
  | none => simp [status_for_lab, hp]
  | some v =>
    cases tri with
    | none => simp [status_for_lab, hp]
    | some t =>
      by_cases htri : t = "T1" ∨ t = "T2" ∨ t = "T3"
      · cases hf : findRange ranges (pyUpper lab.test_name) t with
        | none => simp [status_for_lab, hp, htri, hf]
        | some rr =>
          simp only [status_for_lab, hp, htri, hf, if_pos]
          split_ifs <;> simp
      · simp [status_for_lab, hp, htri]

/-- C8: in the seed table the TSH range for T2 is low 0.2 and high 3.0,
and a TSH lab in T2 with result "3.0" is NORMAL while "3.1" is HIGH. -/
theorem seed_tsh_t2_example :
    findRange SEED "TSH" "T2" = some ⟨"TSH", "T2", 0.2, 3.0, "mIU/L"⟩ ∧
    (0.2 : ℚ) = 1/5 ∧ (3.0 : ℚ) = 3 ∧
    status_for_lab SEED ⟨1, 1, "TSH", "3.0", 0⟩ (some "T2") = "NORMAL" ∧
    status_for_lab SEED ⟨2, 1, "TSH", "3.1", 0⟩ (some "T2") = "HIGH" := by
  have h30 : pyFloat? "3.0" = some 3 := by
    simp [pyFloat?, show pyParse? "3.0" = some ⟨false, 3, 0, 1, 0⟩ from by decide,
      DecLit.val]
  have h31 : pyFloat? "3.1" = some (31/10) := by
    simp [pyFloat?, show pyParse? "3.1" = some ⟨false, 3, 1, 1, 0⟩ from by decide,
      DecLit.val]
    norm_num
  refine ⟨rfl, by norm_num, by norm_num, ?_, ?_⟩
  · simp [status_for_lab, h30, findRange, SEED, pyUpper]
    norm_num
  · simp [status_for_lab, h31, findRange, SEED, pyUpper]
    norm_num


lemma lexAfter_iff (a b : Lab) : lexAfter a b = true ↔
    b.test_date < a.test_date ∨ (a.test_date = b.test_date ∧ b.id < a.id) := by
  simp [lexAfter]

lemma lexAfter_false_iff (a b : Lab) : lexAfter a b = false ↔
    ¬(b.test_date < a.test_date ∨ (a.test_date = b.test_date ∧ b.id < a.id)) := by
  rw [← lexAfter_iff]
  cases h : lexAfter a b <;> simp

lemma pickLater_some (acc : Option Lab) (x : Lab) :
    pickLater acc x = some x ∨ ∃ a, acc = some a ∧ pickLater acc x = some a := by
  cases acc with
  | none => exact Or.inl rfl
  | some a =>
    simp only [pickLater]
    split_ifs with h
    · exact Or.inl rfl
    · exact Or.inr ⟨a, rfl, rfl⟩

lemma foldl_pickLater_none_iff (l : List Lab) :
    ∀ acc, l.foldl pickLater acc = none ↔ acc = none ∧ l = [] := by
  induction l with
  | nil => intro acc; simp
  | cons x t ih =>
    intro acc
    simp only [List.foldl_cons, ih]
    constructor
    · rintro ⟨h1, -⟩
      rcases pickLater_some acc x with h | ⟨a, -, h⟩ <;> rw [h] at h1 <;> exact absurd h1 (by simp)
    · rintro ⟨-, h2⟩
      exact absurd h2 (by simp)

lemma foldl_pickLater_spec (l : List Lab) :
    ∀ acc p, l.foldl pickLater acc = some p →
      (acc = some p ∨ p ∈ l) ∧
      (∀ a, acc = some a → lexAfter a p = false) ∧
      (∀ x ∈ l, lexAfter x p = false) := by
  induction l with
  | nil =>
    intro acc p h
    simp only [List.foldl_nil] at h
    refine ⟨Or.inl h, fun a ha => ?_, by simp⟩
    rw [ha] at h; injection h with h; rw [h]
    rw [lexAfter_false_iff]; omega
  | cons x t ih =>
    intro acc p h
    simp only [List.foldl_cons] at h
    obtain ⟨hmem, hacc, hall⟩ := ih (pickLater acc x) p h
    have hx : lexAfter x p = false := by
      cases acc with
      | none => exact hacc x rfl
      | some a =>
        by_cases hxa : lexAfter x a = true
        · exact hacc x (by simp [pickLater, hxa])
        · have h1 := hacc a (by simp [pickLater, hxa])
          rw [Bool.not_eq_true] at hxa
          rw [lexAfter_false_iff] at h1 hxa ⊢
          omega
    refine ⟨?_, ?_, ?_⟩
    · rcases hmem with hm | hm
      · cases acc with
        | none =>
          simp only [pickLater] at hm
          injection hm with hm; rw [← hm]
          exact Or.inr (List.mem_cons_self _ _)
        | some a =>
          simp only [pickLater] at hm
          split_ifs at hm with hxa
          · injection hm with hm; rw [← hm]
            exact Or.inr (List.mem_cons_self _ _)
          · exact Or.inl hm
      · exact Or.inr (List.mem_cons_of_mem _ hm)
    · intro b hb
      by_cases hxb : lexAfter x b = true
      · have h2 := hacc x (by rw [hb]; simp [pickLater, hxb])
        rw [lexAfter_false_iff] at h2 ⊢
        rw [lexAfter_iff] at hxb
        omega
      · exact hacc b (by rw [hb]; simp [pickLater, hxb])
    · intro y hy
      rcases List.mem_cons.mp hy with hyx | hyt
      · rw [hyx]; exact hx
      · exact hall y hyt

/-- C2: `_delta_for_lab` selects as previous the same-user, same-name lab
that is greatest under the lexicographic (test_date, id) order among those
strictly earlier under that order; delta is `none` without such a lab,
on either parse failure, or a zero previous value, and otherwise is
`round(((current - previous) / previous) * 100, 1)`. -/
theorem delta_for_lab_spec (labs : List Lab) (uid : ℤ) (lab : Lab) :
    (∀ x, prevFilter uid lab x = true ↔
      (x.user_id = uid ∧ x.test_name = lab.test_name ∧
        (x.test_date < lab.test_date ∨ (x.test_date = lab.test_date ∧ x.id < lab.id)))) ∧
    (∀ p, prevLab? labs uid lab = some p →
      p ∈ labs ∧ prevFilter uid lab p = true ∧
      ∀ x ∈ labs, prevFilter uid lab x = true →
        (x.test_date < p.test_date ∨ (x.test_date = p.test_date ∧ x.id ≤ p.id))) ∧
    (prevLab? labs uid lab = none ↔ ∀ x ∈ labs, prevFilter uid lab x = false) ∧
    (pyFloat? lab.result = none → delta_for_lab labs uid lab = none) ∧
    (prevLab? labs uid lab = none → delta_for_lab labs uid lab = none) ∧
    (∀ p, prevLab? labs uid lab = some p → pyFloat? p.result = none →
      delta_for_lab labs uid lab = none) ∧
    (∀ p c pv, prevLab? labs uid lab = some p → pyFloat? lab.result = some c →
      pyFloat? p.result = some pv →
      delta_for_lab labs uid lab =
        if pv = 0 then none else some (pyRound1 ((c - pv) / pv * 100))) := by
  refine ⟨?_, ?_, ?_, ?_, ?_, ?_, ?_⟩
  · intro x
    simp [prevFilter, and_assoc]
  · intro p hp
    obtain ⟨hmem, -, hall⟩ := foldl_pickLater_spec _ none p hp
    rcases hmem with hm | hm
    · exact absurd hm (by simp)
    · obtain ⟨hinl, hfil⟩ := List.mem_filter.mp hm
      refine ⟨hinl, hfil, fun x hxl hxf => ?_⟩
      have hx := hall x (List.mem_filter.mpr ⟨hxl, hxf⟩)
      rw [lexAfter_false_iff] at hx
      omega
  · rw [prevLab?, foldl_pickLater_none_iff]
    simp only [true_and]
    rw [List.filter_eq_nil_iff]
    constructor
    · intro h x hx
      simpa using h x hx
    · intro h x hx
      simpa using h x hx
  · intro hp
    simp [delta_for_lab, hp]
  · intro hp
    cases hc : pyFloat? lab.result <;> simp [delta_for_lab, hc, hp]
  · intro p hp hpv
    cases hc : pyFloat? lab.result <;> simp [delta_for_lab, hc, hp, hpv]
  · intro p c pv hp hc hpv
    simp [delta_for_lab, hc, hp, hpv]

/-- Witness for `delta_for_lab_spec`: prior TSH "2.0", current "3.0" gives
delta 50.0. -/
theorem delta_for_lab_spec_witness :
    delta_for_lab [⟨1, 1, "TSH", "2.0", 0⟩, ⟨2, 1, "TSH", "3.0", 1⟩] 1
      ⟨2, 1, "TSH", "3.0", 1⟩ = some 50 := by
  have hprev : prevLab? [⟨1, 1, "TSH", "2.0", 0⟩, ⟨2, 1, "TSH", "3.0", 1⟩] 1
      ⟨2, 1, "TSH", "3.0", 1⟩ = some ⟨1, 1, "TSH", "2.0", 0⟩ := by decide
  have hc : pyFloat? "3.0" = some 3 := by
    simp [pyFloat?, show pyParse? "3.0" = some ⟨false, 3, 0, 1, 0⟩ from by decide,
      DecLit.val]
  have hpv : pyFloat? "2.0" = some 2 := by
    simp [pyFloat?, show pyParse? "2.0" = some ⟨false, 2, 0, 1, 0⟩ from by decide,
      DecLit.val]
  rw [(delta_for_lab_spec [⟨1, 1, "TSH", "2.0", 0⟩, ⟨2, 1, "TSH", "3.0", 1⟩] 1
      ⟨2, 1, "TSH", "3.0", 1⟩).2.2.2.2.2.2 ⟨1, 1, "TSH", "2.0", 0⟩ 3 2 hprev hc hpv]
  norm_num [pyRound1, roundHalfEven]

end Hashimom
